import Mathlib

/-!
Shallow embedding of the ANTA catalog engine (`anta/catalog.py`) and the
execution engine (`anta/runner.py`).  Pure Python functions become Lean
functions; exceptions become `Except`; the external collaborators that the
source delegates to (pydantic model construction, `importlib.import_module`,
`asyncio.gather`, the device inventory) are modelled from their documented
semantics, each in a definition whose doc comment says so.
-/

/-- A scalar field value occurring in raw catalog input data (the payload of a
YAML document after parsing).  The concrete values are opaque to the catalog
engine, which only moves them around, so a small universe suffices. -/
inductive Value where
  | str (s : String)
  | int (n : Int)
  | null
deriving DecidableEq

/-- Modelled from the spec: the `filters` sub-model of `anta.models.AntaTest.Input`
(`anta/models.py` is not under `src/`).  `AntaCatalog.get_tests_by_tags` reads
`test.inputs.filters.tags`, an optional list of tag strings. -/
structure Filters where
  tags : Option (List String)
deriving DecidableEq

/-- One declared field of an `AntaTest.Input` pydantic schema: a field name and
an optional default value.  Modelled from the spec: pydantic field declarations
(the schema classes live in `anta/tests/*.py`, their machinery in pydantic). -/
structure FieldSpec where
  name : String
  default : Option Value
deriving DecidableEq

/-- A concrete `AntaTest.Input` subclass: its qualified name, whether it is the
base `AntaTest.Input` class itself (tests that declare no own `Input` inherit
the base, e.g. `VerifySSHStatus` in `anta/tests/security.py`), and its declared
fields. -/
structure InputSchema where
  qualname : String
  isBase : Bool
  fields : List FieldSpec
deriving DecidableEq

/-- Python subclass test between input schema classes.  In the source every
concrete `Input` class subclasses `AntaTest.Input` directly (every
`class Input(AntaTest.Input)` in `anta/tests/*.py`), so `c` is a subclass of
`d` iff `c = d` or `d` is the base class. -/
def isSubclassOf (c d : InputSchema) : Bool :=
  c == d || d.isBase

/-- An `AntaTest` concrete subclass as the catalog engine sees it: its `name`
class attribute and its `Input` schema class (own or inherited). -/
structure TestClass where
  name : String
  inputSchema : InputSchema
deriving DecidableEq

/-- A runtime instance of some `Input` schema class: its concrete runtime
class, its field values, and the `filters` attribute read by tag filtering. -/
structure InputInstance where
  cls : InputSchema
  values : List (String × Value)
  filters : Option Filters
deriving DecidableEq

/-- The shapes the raw `inputs` datum of one test declaration can take when it
reaches `AntaTestDefinition.instantiate_inputs`: an already-bound
`AntaTest.Input` instance, a field dictionary, `None`, or anything else. -/
inductive RawInputs where
  | inst (i : InputInstance)
  | dict (fields : List (String × Value))
  | null
  | other (tyName : String)
deriving DecidableEq

/-- Errors raised while binding one test declaration
(`AntaTestDefinition.__init__` and its validators in `anta/catalog.py`). -/
inductive BindError where
  /-- Models `PydanticCustomError("wrong_test_inputs", ...)`: the test name and the
  field names reported by the underlying validation error. -/
  | wrongTestInputs (testName : String) (errorFields : List String)
  /-- Models the `ValueError` from `instantiate_inputs` for an unsupported input shape. -/
  | invalidType (tyName : String)
  /-- Models the `ValueError` from `check_inputs`: runtime inputs class vs declared class. -/
  | inputsTypeMismatch (got expected : String)
deriving DecidableEq

/-- Modelled from the spec: pydantic model construction for an `Input` schema
(pydantic is external; spec 4.1: "`rawInput = null` → construct schema using
only default field values; fails if any required field lacks a default.
`rawInput` = field mapping → construct with those fields; unknown /
missing-required fields fail", the error naming the offending fields).  On
success the instance's runtime class is the schema itself and each field holds
the provided value, else its default. -/
def constructInput (schema : InputSchema) (args : List (String × Value)) :
    Except (List String) InputInstance :=
  let missing := (schema.fields.filter
    (fun f => f.default.isNone && args.all (fun a => a.1 ≠ f.name))).map (·.name)
  let unknown := (args.filter
    (fun a => schema.fields.all (fun f => f.name ≠ a.1))).map (·.1)
  if missing = [] ∧ unknown = [] then
    .ok ⟨schema,
      schema.fields.map (fun f =>
        (f.name, match args.find? (fun a => a.1 = f.name) with
          | some a => a.2
          | none => f.default.getD .null)),
      none⟩
  else
    .error (missing ++ unknown)

/-- Embeds `AntaTestDefinition.instantiate_inputs` (`anta/catalog.py:66-105`): an
already-bound instance passes through unchanged; `None` constructs the test's
schema from defaults; a dictionary constructs it from the given fields, a
`ValidationError` being re-raised as `wrong_test_inputs` carrying the test
name; any other shape is a `ValueError`. -/
def instantiate_inputs (test : TestClass) (data : RawInputs) :
    Except BindError InputInstance :=
  match data with
  | .inst i => .ok i
  | .null =>
    match constructInput test.inputSchema [] with
    | .ok i => .ok i
    | .error errs => .error (.wrongTestInputs test.name errs)
  | .dict fields =>
    match constructInput test.inputSchema fields with
    | .ok i => .ok i
    | .error errs => .error (.wrongTestInputs test.name errs)
  | .other tyName => .error (.invalidType tyName)

/-- Embeds `AntaTestDefinition.check_inputs` (`anta/catalog.py:107-116`): the
`mode="after"` model validator; raises unless
`isinstance(self.inputs, self.test.Input)`. -/
def check_inputs (test : TestClass) (i : InputInstance) : Except BindError Unit :=
  if isSubclassOf i.cls test.inputSchema then .ok ()
  else .error (.inputsTypeMismatch i.cls.qualname test.inputSchema.qualname)

/-- One validated test declaration (`AntaTestDefinition` in `anta/catalog.py`). -/
structure AntaTestDefinition where
  test : TestClass
  inputs : InputInstance
deriving DecidableEq

/-- Construction of an `AntaTestDefinition` (`AntaTestDefinition.__init__`,
which runs `instantiate_inputs` as a before-validator on `inputs` and then the
after-validator `check_inputs`). -/
def mkTestDefinition (test : TestClass) (data : RawInputs) :
    Except BindError AntaTestDefinition := do
  let i ← instantiate_inputs test data
  match check_inputs test i with
  | .ok _ => .ok ⟨test, i⟩
  | .error e => .error e

/-- Embeds `AntaCatalog` (`anta/catalog.py:214`): the ordered list of test
definitions and the optional source filename. -/
structure AntaCatalog where
  tests : List AntaTestDefinition
  filename : Option String
deriving DecidableEq

/-- Embeds `AntaCatalog.get_tests_by_tags` (`anta/catalog.py:339-353`).  Python
truthiness: `test.inputs.filters` is falsy when `None`, and
`test.inputs.filters.tags` is falsy when `None` or the empty list. -/
def AntaCatalog.get_tests_by_tags (catalog : AntaCatalog) (tags : List String)
    (strict : Bool) : List AntaTestDefinition :=
  catalog.tests.filter fun test =>
    match test.inputs.filters with
    | some filters =>
      match filters.tags with
      | some f =>
        !f.isEmpty &&
          (if strict then f.all (fun t => tags.contains t)
           else f.any (fun t => tags.contains t))
      | none => false
    | none => false

/-- The declared tag set of a definition, as read by the tag filter. -/
def declaredTags (d : AntaTestDefinition) : Option (List String) :=
  match d.inputs.filters with
  | some filters => filters.tags
  | none => none

/-- A fully-qualified Python module path, as dot-separated components. -/
abbrev ModPath := List String

/-- A catalog document key naming a namespace, in the structured form of the
Python string: either without a leading dot (`"anta.tests"`) or with `dots`
leading dots (`".connectivity"` is `relative 1 ["connectivity"]`). -/
inductive ModNameKey where
  | absolute (parts : List String)
  | relative (dots : Nat) (parts : List String)
deriving DecidableEq

/-- Modelled from Python's `importlib.import_module` (external library): an
absolute name imports iff the module exists; a name with `k` leading dots
requires a `package`, climbs `k - 1` levels up from it and appends the rest.
A relative name with no package fails, as does any non-existing module. -/
def import_module (univ : ModPath → Bool) (name : ModNameKey)
    (package : Option ModPath) : Option ModPath :=
  match name with
  | .absolute p => if univ p then some p else none
  | .relative k p =>
    match package with
    | none => none
    | some pkg =>
      if k = 0 then none
      else if k - 1 ≤ pkg.length then
        let full := pkg.take (pkg.length - (k - 1)) ++ p
        if univ full then some full else none
      else none

/-- The key adjustment in `AntaCatalogFile.flatten_modules`
(`anta/catalog.py:153-155`): `if package and not module_name.startswith("."):
module_name = f".{module_name}"`. -/
def adjustName (package : Option ModPath) (name : ModNameKey) : ModNameKey :=
  match package, name with
  | some _, .absolute p => .relative 1 p
  | _, n => n

/-- One element of a leaf list in the catalog document: either a mapping
(a YAML dictionary from test name to raw inputs) or some other value. -/
inductive LeafEntry where
  | mapping (pairs : List (String × RawInputs))
  | nonMapping (what : String)
deriving DecidableEq

/-- A value of the catalog document tree under a namespace key: a list of leaf
entries, a nested namespace mapping, or any other value (a syntax error). -/
inductive CatalogNode where
  | leafList (entries : List LeafEntry)
  | nested (entries : List (ModNameKey × CatalogNode))
  | other (what : String)

/-- Errors aborting catalog construction (`ValueError` / `TypeError` raised in
`anta/catalog.py`, surfaced to the caller through pydantic's
`ValidationError`). -/
inductive CatalogError where
  /-- Models `flatten_modules`: "Module named ... cannot be imported", carrying the
  unresolved name and, when known, the parent package. -/
  | moduleImport (name : ModNameKey) (package : Option ModPath)
  /-- Models `flatten_modules`: "Syntax error when parsing: ... It must be a list". -/
  | notAListOfTests (what : String)
  /-- Models `check_tests`: "Syntax error when parsing: ... It must be a dictionary". -/
  | notADict (what : String)
  /-- Models `check_tests`: "Syntax error when parsing: ... It must be a dictionary
  with a single entry", carrying the offending fragment. -/
  | notSingleEntry (pairs : List (String × RawInputs))
  /-- Models `check_tests`: "... is not defined in Python module ...". -/
  | testNotFound (testName : String) (modulePath : ModPath)
  /-- A binding error from `AntaTestDefinition` construction. -/
  | bind (e : BindError)
  /-- Models `from_dict`: "Wrong input type for catalog data, must be a dict". -/
  | wrongInputType (tyName : String)
deriving DecidableEq

/-- Python `dict` assignment `d[key] = v`: replace in place if the key exists,
else append (insertion order preserved). -/
def dictUpdate (d : List (ModPath × List LeafEntry)) (key : ModPath)
    (v : List LeafEntry) : List (ModPath × List LeafEntry) :=
  if d.any (fun p => p.1 == key) then
    d.map (fun p => if p.1 == key then (p.1, v) else p)
  else
    d ++ [(key, v)]

/-- Python `dict.update(other)`: assign every key of `other` in order. -/
def dictUpdateAll (d other : List (ModPath × List LeafEntry)) :
    List (ModPath × List LeafEntry) :=
  other.foldl (fun acc p => dictUpdate acc p.1 p.2) d

/-- Embeds `AntaCatalogFile.flatten_modules` (`anta/catalog.py:135-174`), with the
`modules` dictionary threaded as the `acc` accumulator.  For each key: adjust
the name, import it (failure raises, aborting everything); a nested mapping is
flattened recursively relative to the imported module and merged with
`dict.update`; a list becomes that module's entry; anything else raises. -/
def flattenAux (univ : ModPath → Bool) (package : Option ModPath)
    (acc : List (ModPath × List LeafEntry)) :
    List (ModNameKey × CatalogNode) →
    Except CatalogError (List (ModPath × List LeafEntry))
  | [] => .ok acc
  | (name, node) :: rest =>
    let key := adjustName package name
    match import_module univ key package with
    | none => .error (.moduleImport key package)
    | some m =>
      match node with
      | .nested entries =>
        match flattenAux univ (some m) [] entries with
        | .error e => .error e
        | .ok inner => flattenAux univ package (dictUpdateAll acc inner) rest
      | .leafList tests => flattenAux univ package (dictUpdate acc m tests) rest
      | .other what => .error (.notAListOfTests what)

/-- Embeds the `AntaCatalogFile.flatten_modules` entry point: `modules` starts empty and
the top level has no package. -/
def flatten_modules (univ : ModPath → Bool)
    (data : List (ModNameKey × CatalogNode)) :
    Except CatalogError (List (ModPath × List LeafEntry)) :=
  flattenAux univ none [] data

/-- The parts of the Python runtime environment the loader consults: which
modules are importable, and `getattr(module, test_name, None)` restricted to
`AntaTest` subclasses. -/
structure PyUniverse where
  moduleExists : ModPath → Bool
  getattr : ModPath → String → Option TestClass

/-- Validation of one leaf entry in `AntaCatalogFile.check_tests`
(`anta/catalog.py:191-209`): it must be a dictionary with exactly one entry,
its test name must resolve in the module, and the `(test, inputs)` pair is
bound into an `AntaTestDefinition`. -/
def checkTestEntry (univ : PyUniverse) (m : ModPath) (entry : LeafEntry) :
    Except CatalogError AntaTestDefinition :=
  match entry with
  | .nonMapping what => .error (.notADict what)
  | .mapping pairs =>
    match pairs with
    | [(test_name, test_inputs)] =>
      match univ.getattr m test_name with
      | none => .error (.testNotFound test_name m)
      | some test =>
        match mkTestDefinition test test_inputs with
        | .ok d => .ok d
        | .error e => .error (.bind e)
    | _ => .error (.notSingleEntry pairs)

/-- Embeds `AntaCatalogFile.check_tests` (`anta/catalog.py:178-211`): flatten the
namespaces, then validate every leaf entry of every module in order, the first
failure aborting the whole validation. -/
def check_tests (univ : PyUniverse) (data : List (ModNameKey × CatalogNode)) :
    Except CatalogError (List (ModPath × List AntaTestDefinition)) := do
  let typed_data ← flatten_modules univ.moduleExists data
  typed_data.mapM (fun p => do
    let defs ← p.2.mapM (checkTestEntry univ p.1)
    pure (p.1, defs))

/-- The top-level shapes catalog data can take when it reaches
`AntaCatalog.from_dict`: `None`, a dictionary, or anything else. -/
inductive RawCatalogData where
  | null
  | dict (entries : List (ModNameKey × CatalogNode))
  | other (tyName : String)

/-- Embeds `AntaCatalog.from_dict` (`anta/catalog.py:284-318`): `None` data yields an
empty catalog (a logged warning); non-dict data raises a `TypeError`; otherwise
the `AntaCatalogFile` validation runs and its per-module definition lists are
concatenated in order. -/
def from_dict (univ : PyUniverse) (data : RawCatalogData)
    (filename : Option String) : Except CatalogError AntaCatalog :=
  match data with
  | .null => .ok ⟨[], filename⟩
  | .other tyName => .error (.wrongInputType tyName)
  | .dict entries => do
    let catalog_data ← check_tests univ entries
    .ok ⟨(catalog_data.map (·.2)).flatten, filename⟩

/-- Embeds `AntaCatalog.from_list` (`anta/catalog.py:320-337`): bind every
`(test, inputs)` pair in order; the first failure propagates and no catalog is
returned. -/
def from_list (data : List (TestClass × RawInputs)) :
    Except BindError AntaCatalog := do
  let tests ← data.mapM (fun p => mkTestDefinition p.1 p.2)
  .ok ⟨tests, none⟩

/-- An element of the value passed to the `tests` setter: in Python any object;
the setter only distinguishes `AntaTestDefinition` instances from the rest. -/
inductive SetterItem where
  | testDef (d : AntaTestDefinition)
  | other (tyName : String)
deriving DecidableEq

/-- The value passed to the `tests` setter: a list or any other object. -/
inductive SetterValue where
  | list (items : List SetterItem)
  | nonList (tyName : String)
deriving DecidableEq

/-- The element-checking loop of the `tests` setter (`anta/catalog.py:258-261`):
return the typed elements, or the `TypeError` message of the first
non-`AntaTestDefinition` element. -/
def checkSetterItems : List SetterItem →
    Except String (List AntaTestDefinition)
  | [] => .ok []
  | .testDef d :: rest =>
    match checkSetterItems rest with
    | .ok ds => .ok (d :: ds)
    | .error e => .error e
  | .other _ :: _ =>
    .error "A test in the catalog must be an AntaTestDefinition instance"

/-- The `tests` property setter (`anta/catalog.py:253-262`).  The result pairs
the raised exception (if any) with the catalog state after the call: the
assignment `self._tests = value` is the last statement, after all checks. -/
def AntaCatalog.set_tests (c : AntaCatalog) (value : SetterValue) :
    Except String Unit × AntaCatalog :=
  match value with
  | .nonList _ => (.error "The catalog must contain a list of tests", c)
  | .list items =>
    match checkSetterItems items with
    | .error e => (.error e, c)
    | .ok tests => (.ok (), { c with tests := tests })

/-- An inventory device as the runner sees it (`AntaInventory` device entries;
`anta/inventory` is not under `src/`): an identity, a connection-establishment
state and a tag set. -/
structure Device where
  name : String
  established : Bool
  tags : List String
deriving DecidableEq

/-- One entry of the test catalog handed to the runner
(`anta/runner.py:23`): the test callable's identity and its parameter
dictionary, which may hold the `template_params` key. -/
structure TestEntry where
  id : String
  params : List (String × Value)
deriving DecidableEq

/-- A test result as aggregated by the runner (opaque to it). -/
structure TestResult where
  device : String
  test : String
  outcome : String
deriving DecidableEq

/-- Modelled from the spec: `AntaInventory.get_inventory(established_only,
tags)` (`anta/inventory` is not under `src/`).  Spec 4.4: "Device selection:
devices filtered to established state (if `onlyEstablished`) and to tag match
(if `tags` given)". -/
def get_inventory (inventory : List Device) (established_only : Bool)
    (tags : Option (List String)) : List Device :=
  inventory.filter fun d =>
    (!established_only || d.established) &&
      (match tags with
       | none => true
       | some ts => d.tags.any (fun t => ts.contains t))

/-- The work-item list built by the `itertools.product` loop of `main`
(`anta/runner.py:52`): device-major cross product of the selected devices and
the catalog entries. -/
def scheduled_units (inventory : List Device) (tests : List TestEntry)
    (tags : Option (List String)) (established_only : Bool) :
    List (Device × TestEntry) :=
  (get_inventory inventory established_only tags).flatMap fun d =>
    tests.map fun t => (d, t)

/-- Modelled from Python's `asyncio.gather(*coros, return_exceptions=True)`
(external library): every awaitable is run; each slot of the returned list
holds that awaitable's own outcome — its result, or the exception it raised —
in submission order; one awaitable raising neither cancels nor perturbs any
sibling.  A unit's behaviour (the test coroutine, an opaque plugin per the
spec) is the `run_unit` parameter. -/
def gather (units : List (Device × TestEntry))
    (run_unit : Device → TestEntry → Except String TestResult) :
    List (Except String TestResult) :=
  units.map fun u => run_unit u.1 u.2

deriving instance DecidableEq for Except

/-- The observable outcome of one `main` run: the messages logged by the
error loop (`anta/runner.py:58-60`) and the `res` list handed to
`manager.add_test_results` (`anta/runner.py:62`). -/
structure RunLog where
  errors : List String
  results : List (Except String TestResult)
deriving DecidableEq

/-- Embeds `main` (`anta/runner.py:20-62`): connect the inventory, build the
device×test cross product, gather every unit with exceptions returned in
place, log each exception, and hand the full outcome list to the result
manager.  The function is total: no unit outcome escapes it. -/
def runner_main (inventory : List Device) (tests : List TestEntry)
    (tags : Option (List String)) (established_only : Bool)
    (run_unit : Device → TestEntry → Except String TestResult) : RunLog :=
  let coros := scheduled_units inventory tests tags established_only
  let res := gather coros run_unit
  { errors := res.filterMap fun r =>
      match r with
      | .error e => some ("Error when running tests: " ++ e)
      | .ok _ => none
    results := res }

/-- An event in the temporal model of one `main` run. -/
inductive RunEvent where
  /-- Event: `await inventory.connect_inventory()` returned (`anta/runner.py:46`). -/
  | inventory_connected
  /-- One coroutine was created and appended (`anta/runner.py:55`). -/
  | unit_scheduled (d : Device) (t : TestEntry)
  /-- One unit ran to completion inside `asyncio.gather` with its outcome. -/
  | unit_completed (d : Device) (t : TestEntry) (r : Except String TestResult)
  /-- Event: `main` returned after `manager.add_test_results` (`anta/runner.py:62`). -/
  | run_returned
deriving DecidableEq

/-- The event trace of one `main` run.  Modelled from Python asyncio semantics
(external): the `connect_inventory` await completes before the loop creating
the coroutines runs; the coroutines start only inside `asyncio.gather` and
complete in a scheduler-chosen order (`completion_order`, an arbitrary
permutation of the scheduled units); `gather` — and hence `main` — returns
only after every unit completed. -/
def main_trace (inventory : List Device) (tests : List TestEntry)
    (tags : Option (List String)) (established_only : Bool)
    (run_unit : Device → TestEntry → Except String TestResult)
    (completion_order : List (Device × TestEntry)) : List RunEvent :=
  [RunEvent.inventory_connected]
    ++ (scheduled_units inventory tests tags established_only).map
        (fun u => RunEvent.unit_scheduled u.1 u.2)
    ++ completion_order.map
        (fun u => RunEvent.unit_completed u.1 u.2 (run_unit u.1 u.2))
    ++ [RunEvent.run_returned]
/-- Helper: `List.contains` on strings decides membership. -/
theorem contains_iff_mem (l : List String) (a : String) :
    l.contains a = true ↔ a ∈ l := by
  exact List.elem_iff

/-- Modelled from the spec: the base `AntaTest.Input` schema (in
`anta/models.py`, not under `src/`): every field of the base schema is
optional (the spec's "an `Input` schema type (possibly empty)"), among them
`filters`. -/
def antaTestInputSchema : InputSchema :=
  ⟨"AntaTest.Input", true, [⟨"filters", some .null⟩]⟩

/-- A bound base-schema input instance declaring the given filter tags. -/
def taggedInstance (tags : List String) : InputInstance :=
  ⟨antaTestInputSchema, [("filters", .null)], some ⟨some tags⟩⟩

/-- A test definition whose input declares the given filter tags. -/
def taggedDef (testName : String) (tags : List String) : AntaTestDefinition :=
  ⟨⟨testName, antaTestInputSchema⟩, taggedInstance tags⟩

/-- C1 counterexample: a definition tagged `["dc1"]` is returned by the strict
filter `["dc1", "dc3"]` although its tag set does not contain the requested
tag `"dc3"` — the code keeps a definition when all its *declared* tags are
requested, not when all *requested* tags are declared. -/
theorem C1_counterexample :
    (AntaCatalog.mk [taggedDef "VerifyReachability" ["dc1"]] none).get_tests_by_tags
        ["dc1", "dc3"] true = [taggedDef "VerifyReachability" ["dc1"]]
    ∧ declaredTags (taggedDef "VerifyReachability" ["dc1"]) = some ["dc1"]
    ∧ "dc3" ∉ ["dc1"] := by
  refine ⟨by decide, rfl, by decide⟩

/-- C1 (amended): the strict filter returns exactly the definitions whose
input declares a non-empty tag set *all of whose declared tags are requested*
(declared ⊆ requested — the converse of the claim's direction); the non-strict
filter returns exactly those sharing at least one tag with the request; and
the claim's own example stands: a definition tagged `{"dc1","dc2"}` is
excluded by the strict filter `["dc1","dc3"]` but included by the non-strict
one. -/
theorem C1_amended :
    (∀ (c : AntaCatalog) (tags : List String) (d : AntaTestDefinition),
      d ∈ c.get_tests_by_tags tags true ↔
        d ∈ c.tests ∧ ∃ f, declaredTags d = some f ∧ f ≠ [] ∧ ∀ t ∈ f, t ∈ tags)
    ∧ (∀ (c : AntaCatalog) (tags : List String) (d : AntaTestDefinition),
      d ∈ c.get_tests_by_tags tags false ↔
        d ∈ c.tests ∧ ∃ f, declaredTags d = some f ∧ ∃ t ∈ f, t ∈ tags)
    ∧ (AntaCatalog.mk [taggedDef "T" ["dc1", "dc2"]] none).get_tests_by_tags
        ["dc1", "dc3"] true = []
    ∧ (AntaCatalog.mk [taggedDef "T" ["dc1", "dc2"]] none).get_tests_by_tags
        ["dc1", "dc3"] false = [taggedDef "T" ["dc1", "dc2"]] := by
  refine ⟨?_, ?_, by decide, by decide⟩
  · intro c tags d
    rw [AntaCatalog.get_tests_by_tags, List.mem_filter]
    refine and_congr_right fun _ => ?_
    rcases hfil : d.inputs.filters with _ | fl
    · simp [declaredTags, hfil]
    · rcases htags : fl.tags with _ | f
      · simp [declaredTags, hfil, htags]
      · simp [declaredTags, hfil, htags, List.isEmpty_iff, List.all_eq_true,
          contains_iff_mem]
  · intro c tags d
    rw [AntaCatalog.get_tests_by_tags, List.mem_filter]
    refine and_congr_right fun _ => ?_
    rcases hfil : d.inputs.filters with _ | fl
    · simp [declaredTags, hfil]
    · rcases htags : fl.tags with _ | f
      · simp [declaredTags, hfil, htags]
      · simp [declaredTags, hfil, htags, List.any_eq_true, contains_iff_mem,
          List.isEmpty_eq_false]
        intro x hx _ h
        subst h
        exact absurd hx (List.not_mem_nil x)

/-- Embeds `VerifyReachability.Input` (`anta/tests/connectivity.py:47`): its `hosts`
field is required (declared with no default). -/
def verifyReachabilityInputSchema : InputSchema :=
  ⟨"VerifyReachability.Input", false, [⟨"hosts", none⟩]⟩

/-- Embeds `VerifyReachability` (`anta/tests/connectivity.py:19`). -/
def VerifyReachabilityClass : TestClass :=
  ⟨"VerifyReachability", verifyReachabilityInputSchema⟩

/-- Embeds `VerifySSHStatus` (`anta/tests/security.py:22`): it declares no own `Input`
class, so its `Input` attribute is the inherited base `AntaTest.Input`. -/
def VerifySSHStatusClass : TestClass :=
  ⟨"VerifySSHStatus", antaTestInputSchema⟩

/-- A bound `VerifyReachability.Input` instance. -/
def crossWiredInputs : InputInstance :=
  ⟨verifyReachabilityInputSchema, [("hosts", .str "10.0.0.1")], none⟩

/-- C2 counterexample: an `AntaTestDefinition` for `VerifySSHStatus` is
successfully constructed with a bound `VerifyReachability.Input` instance —
another variant's Input type — because `check_inputs` uses `isinstance`
against `VerifySSHStatus.Input = AntaTest.Input`, which any Input subclass
instance satisfies; the resulting inputs' runtime type is not the declared
schema type. -/
theorem C2_counterexample :
    mkTestDefinition VerifySSHStatusClass (.inst crossWiredInputs)
      = .ok ⟨VerifySSHStatusClass, crossWiredInputs⟩
    ∧ crossWiredInputs.cls ≠ VerifySSHStatusClass.inputSchema
    ∧ crossWiredInputs.cls = VerifyReachabilityClass.inputSchema := by
  refine ⟨by decide, by decide, rfl⟩

/-- C2 (amended): for every successfully constructed `AntaTestDefinition`, the
post-construction check guarantees the bound inputs instance is an
`isinstance` of the variant's declared Input schema type — the declared class
itself or a subclass of it — but not that its runtime type equals it exactly. -/
theorem C2_amended :
    ∀ (test : TestClass) (data : RawInputs) (d : AntaTestDefinition),
      mkTestDefinition test data = .ok d →
        d.test = test ∧ isSubclassOf d.inputs.cls test.inputSchema = true := by
  intro test data d h
  unfold mkTestDefinition at h
  cases hi : instantiate_inputs test data with
  | error e =>
    rw [hi] at h
    simp [Bind.bind, Except.bind] at h
  | ok i =>
    rw [hi] at h
    simp only [Bind.bind, Except.bind] at h
    unfold check_inputs at h
    by_cases hc : isSubclassOf i.cls test.inputSchema = true
    · rw [if_pos hc] at h
      cases h
      exact ⟨rfl, hc⟩
    · rw [if_neg hc] at h
      cases h

/-- C2 witness: the amended theorem applied to the cross-wired construction. -/
theorem C2_amended_witness :
    (AntaTestDefinition.mk VerifySSHStatusClass crossWiredInputs).test
        = VerifySSHStatusClass
    ∧ isSubclassOf
        (AntaTestDefinition.mk VerifySSHStatusClass crossWiredInputs).inputs.cls
        VerifySSHStatusClass.inputSchema = true :=
  C2_amended VerifySSHStatusClass (.inst crossWiredInputs)
    ⟨VerifySSHStatusClass, crossWiredInputs⟩ (by decide)

/-- The input instance pydantic builds when every field takes its default. -/
def defaultInstance (schema : InputSchema) : InputInstance :=
  ⟨schema, schema.fields.map (fun f => (f.name, f.default.getD .null)), none⟩

/-- Constructing a schema from no arguments succeeds with all-default field
values when every field has a default. -/
theorem constructInput_null_ok (schema : InputSchema)
    (h : ∀ f ∈ schema.fields, f.default.isSome) :
    constructInput schema [] = .ok (defaultInstance schema) := by
  have hfil : schema.fields.filter (fun f => f.default.isNone) = [] := by
    rw [List.filter_eq_nil_iff]
    intro f hf
    have hs := h f hf
    cases hd : f.default with
    | none => rw [hd] at hs; simp at hs
    | some v => simp [hd]
  unfold constructInput
  simp only [List.all_nil, Bool.and_true, List.filter_nil, List.map_nil,
    List.find?_nil, hfil, defaultInstance]
  simp

/-- Constructing a schema from no arguments fails, naming the defaultless
fields, when some field lacks a default. -/
theorem constructInput_null_err (schema : InputSchema)
    (h : ∃ f ∈ schema.fields, f.default = none) :
    ∃ missing, constructInput schema [] = .error missing ∧ missing ≠ []
      ∧ ∀ n ∈ missing, ∃ f ∈ schema.fields, f.name = n ∧ f.default = none := by
  refine ⟨(schema.fields.filter (fun f => f.default.isNone)).map (·.name),
    ?_, ?_, ?_⟩
  · unfold constructInput
    simp only [List.all_nil, Bool.and_true, List.filter_nil, List.map_nil,
      List.append_nil]
    rw [if_neg]
    rintro ⟨h1, -⟩
    obtain ⟨f, hf, hd⟩ := h
    have : f.name ∈ (schema.fields.filter (fun f => f.default.isNone)).map (·.name) :=
      List.mem_map_of_mem _ (List.mem_filter.mpr ⟨hf, by simp [hd]⟩)
    rw [h1] at this
    exact absurd this (List.not_mem_nil _)
  · obtain ⟨f, hf, hd⟩ := h
    exact List.ne_nil_of_mem
      (List.mem_map_of_mem _ (List.mem_filter.mpr ⟨hf, by simp [hd]⟩))
  · intro n hn
    obtain ⟨f, hf, rfl⟩ := List.mem_map.mp hn
    obtain ⟨hmem, hnone⟩ := List.mem_filter.mp hf
    exact ⟨f, hmem, rfl, Option.isNone_iff_eq_none.mp (by simpa using hnone)⟩

/-- C6: binding a `null` raw input succeeds iff every field of the variant's
Input schema has a default; on success the bound instance carries only the
default field values, and on failure the structured validation error carries
the test name and names every (hence at least one) defaultless field. -/
theorem C6_null_binding :
    ∀ (t : TestClass),
      ((∀ f ∈ t.inputSchema.fields, f.default.isSome) →
        mkTestDefinition t .null = .ok ⟨t, defaultInstance t.inputSchema⟩)
    ∧ ((∃ f ∈ t.inputSchema.fields, f.default = none) →
        ∃ missing, mkTestDefinition t .null
            = .error (.wrongTestInputs t.name missing)
          ∧ missing ≠ []
          ∧ ∀ n ∈ missing, ∃ f ∈ t.inputSchema.fields,
              f.name = n ∧ f.default = none) := by
  intro t
  constructor
  · intro hall
    unfold mkTestDefinition instantiate_inputs
    rw [constructInput_null_ok t.inputSchema hall]
    simp [Bind.bind, Except.bind, check_inputs, isSubclassOf, defaultInstance]
  · intro hex
    obtain ⟨missing, hc, hne, hmem⟩ := constructInput_null_err t.inputSchema hex
    refine ⟨missing, ?_, hne, hmem⟩
    unfold mkTestDefinition instantiate_inputs
    rw [hc]
    simp [Bind.bind, Except.bind]

/-- C6 witness: `VerifySSHStatus` (all Input fields defaulted) binds `null` to
its defaults; `VerifyReachability` (required `hosts`) fails naming it. -/
theorem C6_null_binding_witness :
    mkTestDefinition VerifySSHStatusClass .null
        = .ok ⟨VerifySSHStatusClass, defaultInstance antaTestInputSchema⟩
    ∧ ∃ missing, mkTestDefinition VerifyReachabilityClass .null
          = .error (.wrongTestInputs "VerifyReachability" missing)
        ∧ missing ≠ []
        ∧ ∀ n ∈ missing, ∃ f ∈ verifyReachabilityInputSchema.fields,
            f.name = n ∧ f.default = none :=
  ⟨(C6_null_binding VerifySSHStatusClass).1 (by decide),
   (C6_null_binding VerifyReachabilityClass).2 ⟨⟨"hosts", none⟩, by decide, rfl⟩⟩

/-- The element-checking loop raises its `TypeError` whenever any element is
not an `AntaTestDefinition`. -/
theorem checkSetterItems_error (items : List SetterItem)
    (h : ∃ i ∈ items, ∃ ty, i = SetterItem.other ty) :
    checkSetterItems items
      = .error "A test in the catalog must be an AntaTestDefinition instance" := by
  induction items with
  | nil => simp at h
  | cons i rest ih =>
    obtain ⟨j, hj, ty, hty⟩ := h
    cases i with
    | other ty' => simp [checkSetterItems]
    | testDef d =>
      rcases List.mem_cons.mp hj with rfl | hjr
      · cases hty
      · simp [checkSetterItems, ih ⟨j, hjr, ty, hty⟩]

/-- C10: wholesale replacement through the `tests` setter is atomic on error —
a non-list value, or a list holding any non-`AntaTestDefinition` element,
makes the setter raise a `TypeError` with the catalog's tests left unchanged,
every element being validated before the assignment runs. -/
theorem C10_set_tests_atomic :
    ∀ (c : AntaCatalog) (v : SetterValue),
      ((∃ ty, v = SetterValue.nonList ty)
        ∨ (∃ items, v = SetterValue.list items
            ∧ ∃ i ∈ items, ∃ ty, i = SetterItem.other ty)) →
      ∃ msg, c.set_tests v = (.error msg, c) := by
  intro c v h
  rcases h with ⟨ty, rfl⟩ | ⟨items, rfl, hbad⟩
  · exact ⟨_, rfl⟩
  · refine ⟨"A test in the catalog must be an AntaTestDefinition instance", ?_⟩
    simp only [AntaCatalog.set_tests, checkSetterItems_error items hbad]

/-- C10 witness: replacing the tests of a one-test catalog with a list holding
a non-`AntaTestDefinition` raises and leaves the catalog unchanged. -/
theorem C10_set_tests_atomic_witness :
    ∃ msg, (AntaCatalog.mk [taggedDef "T" ["x"]] none).set_tests
        (SetterValue.list [SetterItem.other "str"])
      = (.error msg, AntaCatalog.mk [taggedDef "T" ["x"]] none) :=
  C10_set_tests_atomic (AntaCatalog.mk [taggedDef "T" ["x"]] none)
    (SetterValue.list [SetterItem.other "str"])
    (Or.inr ⟨[SetterItem.other "str"], rfl,
      SetterItem.other "str", List.mem_singleton.mpr rfl, "str", rfl⟩)

/-- A concrete Python environment for the loader examples: the importable
modules and the `AntaTest` subclasses defined in them. -/
def exUniverse : PyUniverse where
  moduleExists := fun p =>
    [["anta", "tests"], ["anta", "tests", "connectivity"],
     ["pkg"], ["pkg", "tests"]].contains p
  getattr := fun p n =>
    if p = ["pkg", "tests"] ∧ n = "TestX" then some VerifySSHStatusClass
    else if p = ["anta", "tests", "connectivity"] ∧ n = "VerifyReachability" then
      some VerifyReachabilityClass
    else none

/-- C3 counterexample: under parent `anta.tests`, the nested key
`connectivity` has no leading separator, yet it is resolved *relative* to the
parent (to `anta.tests.connectivity`) and the parse succeeds, although no
absolute module `connectivity` exists — so a nested name without a leading
separator is not resolved as an absolute namespace. -/
theorem C3_counterexample :
    flatten_modules exUniverse.moduleExists
        [(.absolute ["anta", "tests"],
          .nested [(.absolute ["connectivity"], .leafList [])])]
      = .ok [(["anta", "tests", "connectivity"], [])]
    ∧ exUniverse.moduleExists ["connectivity"] = false := by
  refine ⟨?_, by decide⟩
  simp [flatten_modules, flattenAux, adjustName, import_module, exUniverse,
    dictUpdate, dictUpdateAll]

/-- C3 (amended): during namespace flattening, *every* nested name is resolved
relative to its parent namespace — a missing leading separator is implicitly
added, so a nested key behaves exactly like the same key with one leading
separator, and a one-dot relative name resolves to the parent's path plus the
name; only top-level names are resolved as absolute namespaces; an
unresolvable namespace aborts the entire parse, carrying the unresolved name
and the parent namespace, and no partial catalog is produced. -/
theorem C3_amended :
    (∀ (univ : ModPath → Bool) (pkg : ModPath) (parts : List String)
        (node : CatalogNode) (rest : List (ModNameKey × CatalogNode))
        (acc : List (ModPath × List LeafEntry)),
      flattenAux univ (some pkg) acc ((ModNameKey.absolute parts, node) :: rest)
        = flattenAux univ (some pkg) acc
            ((ModNameKey.relative 1 parts, node) :: rest))
    ∧ (∀ (univ : ModPath → Bool) (pkg : ModPath) (parts : List String),
      import_module univ (ModNameKey.relative 1 parts) (some pkg)
        = if univ (pkg ++ parts) then some (pkg ++ parts) else none)
    ∧ (∀ (univ : ModPath → Bool) (parts : List String),
      import_module univ (ModNameKey.absolute parts) none
        = if univ parts then some parts else none)
    ∧ (∀ (univ : ModPath → Bool) (package : Option ModPath)
        (acc : List (ModPath × List LeafEntry)) (name : ModNameKey)
        (node : CatalogNode) (rest : List (ModNameKey × CatalogNode)),
      import_module univ (adjustName package name) package = none →
        flattenAux univ package acc ((name, node) :: rest)
          = .error (.moduleImport (adjustName package name) package))
    ∧ (∀ (univ : PyUniverse) (entries : List (ModNameKey × CatalogNode))
        (fn : Option String) (e : CatalogError),
      flatten_modules univ.moduleExists entries = .error e →
        from_dict univ (.dict entries) fn = .error e) := by
  refine ⟨?_, ?_, ?_, ?_, ?_⟩
  · intro univ pkg parts node rest acc
    simp only [flattenAux, adjustName]
  · intro univ pkg parts
    simp [import_module, List.take_length]
  · intro univ parts
    rfl
  · intro univ package acc name node rest h
    simp only [flattenAux]
    rw [h]
  · intro univ entries fn e h
    simp only [from_dict, check_tests, Bind.bind, Except.bind, h]

/-- C3 witness: the unresolvable top-level name `nope` aborts both the
flattening and the whole `from_dict` parse. -/
theorem C3_amended_witness :
    flattenAux exUniverse.moduleExists none []
        [(ModNameKey.absolute ["nope"], CatalogNode.leafList [])]
      = .error (.moduleImport (ModNameKey.absolute ["nope"]) none)
    ∧ from_dict exUniverse
        (.dict [(ModNameKey.absolute ["nope"], CatalogNode.leafList [])]) none
      = .error (.moduleImport (ModNameKey.absolute ["nope"]) none) :=
  ⟨C3_amended.2.2.2.1 exUniverse.moduleExists none []
      (ModNameKey.absolute ["nope"]) (CatalogNode.leafList []) [] (by decide),
   C3_amended.2.2.2.2 exUniverse
      [(ModNameKey.absolute ["nope"], CatalogNode.leafList [])] none
      (.moduleImport (ModNameKey.absolute ["nope"]) none)
      (C3_amended.2.2.2.1 exUniverse.moduleExists none []
        (ModNameKey.absolute ["nope"]) (CatalogNode.leafList []) [] (by decide))⟩

/-- If `mapM` over `Except` succeeds, it succeeded on every element. -/
theorem mapM_ok_mem {α β ε : Type} (f : α → Except ε β) :
    ∀ (l : List α) (ys : List β), l.mapM f = .ok ys →
      ∀ x ∈ l, ∃ y, f x = .ok y := by
  intro l
  induction l with
  | nil =>
    intro ys _ x hx
    exact absurd hx (List.not_mem_nil x)
  | cons a rest ih =>
    intro ys h x hx
    rw [List.mapM_cons] at h
    cases hfa : f a with
    | error e =>
      rw [hfa] at h
      simp [Bind.bind, Except.bind] at h
    | ok b =>
      rw [hfa] at h
      simp only [Bind.bind, Except.bind] at h
      cases hrest : rest.mapM f with
      | error e =>
        rw [hrest] at h
        simp at h
      | ok bs =>
        rcases List.mem_cons.mp hx with rfl | hxr
        · exact ⟨b, hfa⟩
        · exact ih bs hrest x hxr

/-- C5: catalog loading is atomic.  If binding any declaration that the load
reaches fails, the whole load — `from_list` over its pairs, `from_dict` over
the flattened document declarations — raises the error to the caller; by the
`Except` shape of the result, no catalog (in particular none holding the
declarations that validated earlier) can be returned alongside it. -/
theorem C5_atomic_load :
    (∀ (data : List (TestClass × RawInputs)),
      (∃ p ∈ data, ∃ e, mkTestDefinition p.1 p.2 = .error e) →
      ∃ e', from_list data = .error e')
    ∧ (∀ (univ : PyUniverse) (entries : List (ModNameKey × CatalogNode))
        (fn : Option String) (mods : List (ModPath × List LeafEntry))
        (m : ModPath) (tests : List LeafEntry) (entry : LeafEntry)
        (e : CatalogError),
      flatten_modules univ.moduleExists entries = .ok mods →
      (m, tests) ∈ mods → entry ∈ tests →
      checkTestEntry univ m entry = .error e →
      ∃ e', from_dict univ (.dict entries) fn = .error e') := by
  constructor
  · rintro data ⟨p, hp, e, he⟩
    cases hml : from_list data with
    | error e' => exact ⟨e', rfl⟩
    | ok c =>
      exfalso
      unfold from_list at hml
      cases hmm : data.mapM (fun p => mkTestDefinition p.1 p.2) with
      | error e2 =>
        rw [hmm] at hml
        simp [Bind.bind, Except.bind] at hml
      | ok ts =>
        obtain ⟨d, hd⟩ := mapM_ok_mem _ data ts hmm p hp
        rw [he] at hd
        cases hd
  · intro univ entries fn mods m tests entry e hflat hmem hent hchk
    cases hfd : from_dict univ (.dict entries) fn with
    | error e' => exact ⟨e', rfl⟩
    | ok c =>
      exfalso
      simp only [from_dict] at hfd
      cases hct : check_tests univ entries with
      | error e2 =>
        rw [hct] at hfd
        simp [Bind.bind, Except.bind] at hfd
      | ok cd =>
        unfold check_tests at hct
        rw [hflat] at hct
        simp only [Bind.bind, Except.bind] at hct
        obtain ⟨y, hy⟩ := mapM_ok_mem _ mods cd hct (m, tests) hmem
        simp only [Bind.bind, Except.bind] at hy
        cases hmt : tests.mapM (checkTestEntry univ m) with
        | error e3 =>
          rw [hmt] at hy
          simp at hy
        | ok defs =>
          obtain ⟨d, hd⟩ := mapM_ok_mem _ tests defs hmt entry hent
          rw [hchk] at hd
          cases hd

/-- C5 witness: a list load and a document load each containing one
declaration whose binding fails (`VerifyReachability` with `null` inputs —
its `hosts` field is required) abort with an error. -/
theorem C5_atomic_load_witness :
    (∃ e', from_list [(VerifyReachabilityClass, RawInputs.null)] = .error e')
    ∧ (∃ e', from_dict exUniverse
        (.dict [(.absolute ["anta", "tests", "connectivity"],
          .leafList [.mapping [("VerifyReachability", RawInputs.null)]])]) none
        = .error e') := by
  constructor
  · exact C5_atomic_load.1 [(VerifyReachabilityClass, RawInputs.null)]
      ⟨(VerifyReachabilityClass, RawInputs.null), List.mem_singleton.mpr rfl,
        .wrongTestInputs "VerifyReachability" ["hosts"], by decide⟩
  · refine C5_atomic_load.2 exUniverse
      [(.absolute ["anta", "tests", "connectivity"],
        .leafList [.mapping [("VerifyReachability", RawInputs.null)]])] none
      [(["anta", "tests", "connectivity"],
        [.mapping [("VerifyReachability", RawInputs.null)]])]
      ["anta", "tests", "connectivity"]
      [.mapping [("VerifyReachability", RawInputs.null)]]
      (.mapping [("VerifyReachability", RawInputs.null)])
      (.bind (.wrongTestInputs "VerifyReachability" ["hosts"]))
      ?_ (List.mem_singleton.mpr rfl) (List.mem_singleton.mpr rfl) (by decide)
    simp [flatten_modules, flattenAux, adjustName, import_module, exUniverse,
      dictUpdate, dictUpdateAll]

/-- A catalog document whose first key `pkg.tests` holds a two-key leaf entry
and whose second key `pkg` nests a `tests` sub-namespace resolving to the very
same module `pkg.tests`. -/
def shadowDoc : List (ModNameKey × CatalogNode) :=
  [(.absolute ["pkg", "tests"],
      .leafList [.mapping [("TestX", RawInputs.null), ("TestY", RawInputs.null)]]),
   (.absolute ["pkg"],
      .nested [(.absolute ["tests"],
        .leafList [.mapping [("TestX", RawInputs.null)]])])]

/-- C7 counterexample: `shadowDoc` contains the leaf entry
`{"TestX": null, "TestY": null}` with two keys, yet the parse *succeeds* and
yields a catalog: during flattening, the later key `pkg` resolves its nested
`tests` to the same module `pkg.tests`, and the `dict.update` merge replaces
the earlier module entry wholesale, so the offending fragment is never
validated. -/
theorem C7_counterexample :
    from_dict exUniverse (.dict shadowDoc) none
      = .ok ⟨[⟨VerifySSHStatusClass,
              ⟨antaTestInputSchema, [("filters", Value.null)], none⟩⟩], none⟩
    ∧ shadowDoc.get? 0
        = some (.absolute ["pkg", "tests"],
            .leafList [.mapping [("TestX", RawInputs.null), ("TestY", RawInputs.null)]])
    ∧ [("TestX", RawInputs.null), ("TestY", RawInputs.null)].length ≠ 1 := by
  refine ⟨?_, rfl, by decide⟩
  have hflat : flatten_modules exUniverse.moduleExists shadowDoc
      = .ok [(["pkg", "tests"], [.mapping [("TestX", RawInputs.null)]])] := by
    simp [flatten_modules, flattenAux, adjustName, import_module, exUniverse,
      dictUpdate, dictUpdateAll, shadowDoc]
  have hct : check_tests exUniverse shadowDoc
      = .ok [(["pkg", "tests"],
          [⟨VerifySSHStatusClass,
            ⟨antaTestInputSchema, [("filters", Value.null)], none⟩⟩])] := by
    unfold check_tests
    rw [hflat]
    rfl
  show (do
      let catalog_data ← check_tests exUniverse shadowDoc
      (Except.ok ⟨(catalog_data.map fun p => p.2).flatten, none⟩ :
        Except CatalogError AntaCatalog))
    = Except.ok ⟨[⟨VerifySSHStatusClass,
        ⟨antaTestInputSchema, [("filters", Value.null)], none⟩⟩], none⟩
  rw [hct]
  rfl

/-- The claim's own document: a single key whose leaf list holds one two-key
entry. -/
def multiKeyDoc : List (ModNameKey × CatalogNode) :=
  [(.absolute ["pkg", "tests"],
    .leafList [.mapping [("TestX", RawInputs.null), ("TestY", RawInputs.null)]])]

/-- C7 (amended): a leaf entry that is not a mapping or does not have exactly
one key fails the parse with a syntax error naming the offending fragment —
*provided the entry survives namespace flattening*: a later document key
resolving to the same module replaces the earlier key's leaf list wholesale,
so a shadowed entry is never validated.  Concretely,
`{"pkg.tests": [{"TestX": null, "TestY": null}]}` fails naming the two-key
fragment and yields no catalog; and whenever a parse succeeds, every leaf
entry of the flattened module map is a single-key mapping. -/
theorem C7_amended :
    from_dict exUniverse (.dict multiKeyDoc) none
      = .error (.notSingleEntry
          [("TestX", RawInputs.null), ("TestY", RawInputs.null)])
    ∧ (∀ (univ : PyUniverse) (entries : List (ModNameKey × CatalogNode))
        (fn : Option String) (c : AntaCatalog)
        (mods : List (ModPath × List LeafEntry)) (m : ModPath)
        (tests : List LeafEntry) (entry : LeafEntry),
      from_dict univ (.dict entries) fn = .ok c →
      flatten_modules univ.moduleExists entries = .ok mods →
      (m, tests) ∈ mods → entry ∈ tests →
      ∃ nm r, entry = .mapping [(nm, r)]) := by
  constructor
  · have hflat : flatten_modules exUniverse.moduleExists multiKeyDoc
        = .ok [(["pkg", "tests"],
            [.mapping [("TestX", RawInputs.null), ("TestY", RawInputs.null)]])] := by
      simp [flatten_modules, flattenAux, adjustName, import_module, exUniverse,
        dictUpdate, dictUpdateAll, multiKeyDoc]
    have hct : check_tests exUniverse multiKeyDoc
        = .error (.notSingleEntry
            [("TestX", RawInputs.null), ("TestY", RawInputs.null)]) := by
      unfold check_tests
      rw [hflat]
      rfl
    show (do
        let catalog_data ← check_tests exUniverse multiKeyDoc
        (Except.ok ⟨(catalog_data.map fun p => p.2).flatten, none⟩ :
          Except CatalogError AntaCatalog))
      = Except.error (CatalogError.notSingleEntry
          [("TestX", RawInputs.null), ("TestY", RawInputs.null)])
    rw [hct]
    rfl
  · intro univ entries fn c mods m tests entry hok hflat hmem hent
    simp only [from_dict] at hok
    cases hct : check_tests univ entries with
    | error e2 =>
      rw [hct] at hok
      simp [Bind.bind, Except.bind] at hok
    | ok cd =>
      unfold check_tests at hct
      rw [hflat] at hct
      simp only [Bind.bind, Except.bind] at hct
      obtain ⟨y, hy⟩ := mapM_ok_mem _ mods cd hct (m, tests) hmem
      simp only [Bind.bind, Except.bind] at hy
      cases hmt : tests.mapM (checkTestEntry univ m) with
      | error e3 =>
        rw [hmt] at hy
        simp at hy
      | ok defs =>
        obtain ⟨d, hd⟩ := mapM_ok_mem _ tests defs hmt entry hent
        cases entry with
        | nonMapping w => simp [checkTestEntry] at hd
        | mapping pairs =>
          rcases pairs with _ | ⟨⟨nm, r⟩, _ | ⟨q, qs⟩⟩
          · simp [checkTestEntry] at hd
          · exact ⟨nm, r, rfl⟩
          · simp [checkTestEntry] at hd

/-- A well-formed one-entry document over the same module. -/
def singleKeyDoc : List (ModNameKey × CatalogNode) :=
  [(.absolute ["pkg", "tests"], .leafList [.mapping [("TestX", RawInputs.null)]])]

/-- C7 witness: the amended theorem applied to a successful parse of
`singleKeyDoc` shows its surviving leaf entry is a single-key mapping. -/
theorem C7_amended_witness :
    ∃ nm r, LeafEntry.mapping [("TestX", RawInputs.null)]
      = LeafEntry.mapping [(nm, r)] := by
  refine C7_amended.2 exUniverse singleKeyDoc none
      ⟨[⟨VerifySSHStatusClass,
        ⟨antaTestInputSchema, [("filters", Value.null)], none⟩⟩], none⟩
      [(["pkg", "tests"], [.mapping [("TestX", RawInputs.null)]])]
      ["pkg", "tests"] [.mapping [("TestX", RawInputs.null)]]
      (.mapping [("TestX", RawInputs.null)]) ?_ ?_
      (List.mem_singleton.mpr rfl) (List.mem_singleton.mpr rfl)
  · have hflat : flatten_modules exUniverse.moduleExists singleKeyDoc
        = .ok [(["pkg", "tests"], [.mapping [("TestX", RawInputs.null)]])] := by
      simp [flatten_modules, flattenAux, adjustName, import_module, exUniverse,
        dictUpdate, dictUpdateAll, singleKeyDoc]
    have hct : check_tests exUniverse singleKeyDoc
        = .ok [(["pkg", "tests"],
            [⟨VerifySSHStatusClass,
              ⟨antaTestInputSchema, [("filters", Value.null)], none⟩⟩])] := by
      unfold check_tests
      rw [hflat]
      rfl
    show (do
        let catalog_data ← check_tests exUniverse singleKeyDoc
        (Except.ok ⟨(catalog_data.map fun p => p.2).flatten, none⟩ :
          Except CatalogError AntaCatalog))
      = Except.ok ⟨[⟨VerifySSHStatusClass,
          ⟨antaTestInputSchema, [("filters", Value.null)], none⟩⟩], none⟩
    rw [hct]
    rfl
  · simp [flatten_modules, flattenAux, adjustName, import_module, exUniverse,
      dictUpdate, dictUpdateAll, singleKeyDoc]

/-- Example inventory: three devices, one of them not established. -/
def dev1 : Device := ⟨"d1", true, ["leaf"]⟩

/-- Second example device, not established. -/
def dev2 : Device := ⟨"d2", false, ["leaf"]⟩

/-- Third example device, established. -/
def dev3 : Device := ⟨"d3", true, ["spine"]⟩

/-- Example catalog entries for the runner. -/
def exTests : List TestEntry :=
  [⟨"t1", []⟩, ⟨"t2", [("template_params", Value.null)]⟩, ⟨"t3", []⟩]

/-- Example inventory list. -/
def exInv : List Device := [dev1, dev2, dev3]

/-- A unit behaviour raising on exactly the (dev1, t2) unit. -/
def exBehavior (d : Device) (t : TestEntry) : Except String TestResult :=
  if d = dev1 ∧ t = ⟨"t2", [("template_params", Value.null)]⟩ then .error "boom"
  else .ok ⟨d.name, t.id, "success"⟩

/-- A unit behaviour succeeding everywhere. -/
def exBehaviorOk (d : Device) (t : TestEntry) : Except String TestResult :=
  .ok ⟨d.name, t.id, "success"⟩

/-- C8: the scheduled work items are exactly the device-major Cartesian
product of the selected devices and the catalog entries — the unit count is
the product of the two lengths and a pair is scheduled iff its device is
selected and its test is in the catalog; with `established_only = true` and
one of three devices not established, exactly the two established devices
participate, giving 2 × 3 = 6 units. -/
theorem C8_cross_product :
    (∀ (inventory : List Device) (tests : List TestEntry)
        (tags : Option (List String)) (established_only : Bool),
      (scheduled_units inventory tests tags established_only).length
        = (get_inventory inventory established_only tags).length * tests.length)
    ∧ (∀ (inventory : List Device) (tests : List TestEntry)
        (tags : Option (List String)) (established_only : Bool)
        (d : Device) (t : TestEntry),
      (d, t) ∈ scheduled_units inventory tests tags established_only ↔
        d ∈ get_inventory inventory established_only tags ∧ t ∈ tests)
    ∧ get_inventory exInv true none = [dev1, dev3]
    ∧ (scheduled_units exInv exTests none true).length = 6 := by
  refine ⟨?_, ?_, by decide, by decide⟩
  · intro inventory tests tags established_only
    unfold scheduled_units
    generalize get_inventory inventory established_only tags = ds
    induction ds with
    | nil => simp
    | cons d rest ih =>
      simp [List.flatMap_cons, List.length_append, ih, Nat.succ_mul,
        Nat.add_comm]
  · intro inventory tests tags established_only d t
    simp only [scheduled_units, List.mem_flatMap, List.mem_map]
    constructor
    · rintro ⟨a, ha, t', ht', heq⟩
      cases heq
      exact ⟨ha, ht'⟩
    · rintro ⟨hd, ht⟩
      exact ⟨d, hd, t, ht, rfl⟩

/-- C4: unit failures are contained.  Slot-wise, the outcome list handed to
the result manager is each scheduled unit's own outcome (`runner_main` is a
total function — no unit exception escapes it); changing one unit's behaviour
— e.g. making it raise — cannot change any other slot's outcome; a raising
unit's error is logged with its message; and concretely, with 6 units of
which exactly one raises, the other 5 all produce their results and the one
error is logged. -/
theorem C4_failure_isolation :
    (∀ (inventory : List Device) (tests : List TestEntry)
        (tags : Option (List String)) (established_only : Bool)
        (run_unit : Device → TestEntry → Except String TestResult),
      (runner_main inventory tests tags established_only run_unit).results
        = (scheduled_units inventory tests tags established_only).map
            (fun u => run_unit u.1 u.2))
    ∧ (∀ (inventory : List Device) (tests : List TestEntry)
        (tags : Option (List String)) (established_only : Bool)
        (f g : Device → TestEntry → Except String TestResult)
        (u0 : Device × TestEntry),
      (∀ d t, (d, t) ≠ u0 → f d t = g d t) →
      ∀ i : Nat,
        (scheduled_units inventory tests tags established_only)[i]? ≠ some u0 →
        (runner_main inventory tests tags established_only f).results[i]?
          = (runner_main inventory tests tags established_only g).results[i]?)
    ∧ (∀ (inventory : List Device) (tests : List TestEntry)
        (tags : Option (List String)) (established_only : Bool)
        (run_unit : Device → TestEntry → Except String TestResult)
        (d : Device) (t : TestEntry) (e : String),
      (d, t) ∈ scheduled_units inventory tests tags established_only →
      run_unit d t = .error e →
      ("Error when running tests: " ++ e)
        ∈ (runner_main inventory tests tags established_only run_unit).errors)
    ∧ (runner_main exInv exTests none true exBehavior).results
        = [.ok ⟨"d1", "t1", "success"⟩, .error "boom",
           .ok ⟨"d1", "t3", "success"⟩, .ok ⟨"d3", "t1", "success"⟩,
           .ok ⟨"d3", "t2", "success"⟩, .ok ⟨"d3", "t3", "success"⟩]
    ∧ (runner_main exInv exTests none true exBehavior).errors
        = ["Error when running tests: boom"] := by
  refine ⟨?_, ?_, ?_, by decide, by decide⟩
  · intro inventory tests tags established_only run_unit
    rfl
  · intro inventory tests tags established_only f g u0 hfg i hi
    show ((scheduled_units inventory tests tags established_only).map
        (fun u => f u.1 u.2))[i]?
      = ((scheduled_units inventory tests tags established_only).map
        (fun u => g u.1 u.2))[i]?
    rw [List.getElem?_map, List.getElem?_map]
    cases hu : (scheduled_units inventory tests tags established_only)[i]? with
    | none => rfl
    | some u =>
      have hne : (u.1, u.2) ≠ u0 := by
        rw [hu] at hi
        intro h
        exact hi (by rw [← h])
      simp only [Option.map_some']
      rw [hfg u.1 u.2 hne]
  · intro inventory tests tags established_only run_unit d t e hmem herr
    show ("Error when running tests: " ++ e)
      ∈ ((scheduled_units inventory tests tags established_only).map
          (fun u => run_unit u.1 u.2)).filterMap
        (fun r => match r with
          | .error e' => some ("Error when running tests: " ++ e')
          | .ok _ => none)
    refine List.mem_filterMap.mpr ⟨run_unit d t, List.mem_map_of_mem _ hmem, ?_⟩
    rw [herr]

/-- C4 witness: slot 0 of the run is untouched by the behaviour change at the
`(dev1, t2)` unit, and that unit's error is logged. -/
theorem C4_failure_isolation_witness :
    (runner_main exInv exTests none true exBehavior).results[0]?
        = (runner_main exInv exTests none true exBehaviorOk).results[0]?
    ∧ ("Error when running tests: boom")
        ∈ (runner_main exInv exTests none true exBehavior).errors := by
  constructor
  · refine C4_failure_isolation.2.1 exInv exTests none true exBehavior
      exBehaviorOk (dev1, ⟨"t2", [("template_params", Value.null)]⟩) ?_ 0
      (by decide)
    intro d t h
    show (if d = dev1 ∧ t = ⟨"t2", [("template_params", Value.null)]⟩
        then Except.error "boom"
        else Except.ok ⟨d.name, t.id, "success"⟩)
      = exBehaviorOk d t
    rw [if_neg]
    · rfl
    · rintro ⟨rfl, rfl⟩
      exact h rfl
  · exact C4_failure_isolation.2.2.1 exInv exTests none true exBehavior dev1
      ⟨"t2", [("template_params", Value.null)]⟩ "boom" (by decide) (by decide)

/-- C9: in every run trace — for every scheduler-chosen completion order of
the units — the inventory bulk-connect completes as the very first event and
never recurs, so it strictly precedes the scheduling and execution of every
device×test unit; the run returns as the very last event; and every scheduled
unit is both scheduled and run to completion strictly between the connect
barrier and the return (fan-in: `runner_main` returns only after all units
completed). -/
theorem C9_connect_barrier :
    ∀ (inventory : List Device) (tests : List TestEntry)
      (tags : Option (List String)) (established_only : Bool)
      (run_unit : Device → TestEntry → Except String TestResult)
      (completion_order : List (Device × TestEntry)),
      completion_order.Perm
          (scheduled_units inventory tests tags established_only) →
      (main_trace inventory tests tags established_only run_unit
          completion_order)[0]? = some RunEvent.inventory_connected
      ∧ (∀ e ∈ (main_trace inventory tests tags established_only run_unit
            completion_order).tail, e ≠ RunEvent.inventory_connected)
      ∧ (main_trace inventory tests tags established_only run_unit
          completion_order).getLast? = some RunEvent.run_returned
      ∧ (∀ u ∈ scheduled_units inventory tests tags established_only,
          RunEvent.unit_scheduled u.1 u.2
            ∈ (main_trace inventory tests tags established_only run_unit
                completion_order).tail.dropLast
          ∧ RunEvent.unit_completed u.1 u.2 (run_unit u.1 u.2)
            ∈ (main_trace inventory tests tags established_only run_unit
                completion_order).tail.dropLast) := by
  intro inventory tests tags established_only run_unit completion_order hperm
  have htail : (main_trace inventory tests tags established_only run_unit
      completion_order).tail
    = ((scheduled_units inventory tests tags established_only).map
        (fun u => RunEvent.unit_scheduled u.1 u.2)
      ++ completion_order.map
        (fun u => RunEvent.unit_completed u.1 u.2 (run_unit u.1 u.2)))
      ++ [RunEvent.run_returned] := by
    simp [main_trace, List.append_assoc]
  have hdrop : (main_trace inventory tests tags established_only run_unit
      completion_order).tail.dropLast
    = (scheduled_units inventory tests tags established_only).map
        (fun u => RunEvent.unit_scheduled u.1 u.2)
      ++ completion_order.map
        (fun u => RunEvent.unit_completed u.1 u.2 (run_unit u.1 u.2)) := by
    rw [htail, List.dropLast_concat]
  refine ⟨by simp [main_trace, List.singleton_append], ?_, ?_, ?_⟩
  · intro e he
    rw [htail] at he
    rcases List.mem_append.mp he with hin | hlast
    · rcases List.mem_append.mp hin with hs | hc
      · obtain ⟨u, -, rfl⟩ := List.mem_map.mp hs
        intro hcon
        cases hcon
      · obtain ⟨u, -, rfl⟩ := List.mem_map.mp hc
        intro hcon
        cases hcon
    · rw [List.mem_singleton.mp hlast]
      intro hcon
      cases hcon
  · have : main_trace inventory tests tags established_only run_unit
        completion_order
      = (RunEvent.inventory_connected ::
          ((scheduled_units inventory tests tags established_only).map
            (fun u => RunEvent.unit_scheduled u.1 u.2)
          ++ completion_order.map
            (fun u => RunEvent.unit_completed u.1 u.2 (run_unit u.1 u.2))))
        ++ [RunEvent.run_returned] := by
      simp [main_trace, List.append_assoc]
    rw [this, List.getLast?_concat]
  · intro u hu
    rw [hdrop]
    constructor
    · exact List.mem_append_left _ (List.mem_map_of_mem _ hu)
    · exact List.mem_append_right _
        (List.mem_map_of_mem _ (hperm.mem_iff.mpr hu))

/-- C9 witness: the barrier properties hold for the example run under a
reversed completion order. -/
theorem C9_connect_barrier_witness :
    (main_trace exInv exTests none true exBehavior
        (scheduled_units exInv exTests none true).reverse)[0]?
      = some RunEvent.inventory_connected
    ∧ (∀ e ∈ (main_trace exInv exTests none true exBehavior
          (scheduled_units exInv exTests none true).reverse).tail,
        e ≠ RunEvent.inventory_connected)
    ∧ (main_trace exInv exTests none true exBehavior
        (scheduled_units exInv exTests none true).reverse).getLast?
      = some RunEvent.run_returned
    ∧ (∀ u ∈ scheduled_units exInv exTests none true,
        RunEvent.unit_scheduled u.1 u.2
          ∈ (main_trace exInv exTests none true exBehavior
              (scheduled_units exInv exTests none true).reverse).tail.dropLast
        ∧ RunEvent.unit_completed u.1 u.2 (exBehavior u.1 u.2)
          ∈ (main_trace exInv exTests none true exBehavior
              (scheduled_units exInv exTests none true).reverse).tail.dropLast) :=
  C9_connect_barrier exInv exTests none true exBehavior
    (scheduled_units exInv exTests none true).reverse
    (List.reverse_perm _)
